import Mathlib

/-!
Shallow embedding of the nested-transaction coordinator of
`storage-mysql` (`transaction.go`) and proofs about it.

The Go code manipulates three kinds of state:

* a shared mutable `transaction` record (the real `*sql.Tx` plus a
  `savePoint` counter of type `uint64`, guarded by a mutex);
* the immutable `context.Context`, which at the coordinator's key holds
  either nothing, a pointer to a `transaction`, or an explicit `nil`
  (written by the finalizing Commit/Rollback); `ctx.Value` returns `nil`
  in both of the last two absent-like cases, so the binding is modelled
  as `Option` of a handle id;
* the database driver, reached through `db.Begin`, `tx.Exec`,
  `tx.Commit`, `tx.Rollback`.

We model the mutable heap of `transaction` records as a list indexed by
handle id, the driver as a trace of successfully issued statements plus
an oracle (a list of upcoming call outcomes: `none` = success,
`some k` = failure with driver error code `k`; an exhausted oracle means
every further call succeeds), and each coordinator operation as a pure
function `World → Ctx → OpResult` translated branch-by-branch from the
Go source.  The mutex makes each operation's critical section atomic;
in this sequential model every operation is one atomic step, so an
interleaving of concurrent mutex-serialized calls is some sequential
composition of these steps.  `savePoint` is a `uint64`, so its
increment wraps modulo `2 ^ 64`.
-/

namespace StorageMySQL

/-- Numeric bound of the Go `uint64` type, used for the wrap of
`t.savePoint++`. -/
def u64 : Nat := 2 ^ 64

/-- SQL statements the coordinator issues against the driver, one
constructor per call site in `transaction.go`: `db.Begin()`,
`tx.Exec("SAVEPOINT SPn")`, `tx.Exec("RELEASE SAVEPOINT SPn")`,
`tx.Exec("ROLLBACK TO SAVEPOINT SPn")`, `tx.Commit()`,
`tx.Rollback()`. -/
inductive Stmt where
  | begin : Stmt
  | savepoint : Nat → Stmt
  | releaseSavepoint : Nat → Stmt
  | rollbackToSavepoint : Nat → Stmt
  | commit : Stmt
  | rollback : Stmt
deriving DecidableEq, Repr

/-- Errors surfaced by the coordinator.  The first three are the misuse
errors produced by `qerror.Errorf` in `transaction.go` ("No transaction
provided", "Transaction already started", "No started transaction");
`driver k` is an opaque error returned by the database driver (`k`
distinguishes different driver errors); `app k` is an error returned by
a caller-supplied function passed to `DoInTransaction`. -/
inductive Err where
  | noTransactionProvided : Err
  | transactionAlreadyStarted : Err
  | noStartedTransaction : Err
  | driver : Nat → Err
  | app : Nat → Err
deriving DecidableEq, Repr

/-- The Go `transaction` struct: the real transaction (modelled by a
numeric id) and the `savePoint` counter.  The mutex field is modelled
by the atomicity of each operation. -/
structure transaction where
  tx : Nat
  savePoint : Nat
deriving DecidableEq, Repr

/-- Context binding at the coordinator's key: `none` when `ctx.Value`
returns `nil` (no binding, or a binding explicitly set to `nil` by the
finalizing Commit/Rollback — indistinguishable to the code), `some hid`
when a `transaction` with heap id `hid` is bound. -/
abbrev Ctx := Option Nat

/-- Global state outside the contexts: the heap of `transaction`
records (handle id = list index), the trace of statements successfully
issued to the driver, the oracle of upcoming driver-call outcomes, and
the id generator for real transactions produced by `db.Begin`. -/
structure World where
  handles : List transaction
  trace : List Stmt
  oracle : List (Option Nat)
  nextTx : Nat
deriving DecidableEq, Repr

/-- Result of one coordinator operation, mirroring the Go return pair
`(context.Context, error)` plus the mutated ambient state: `ctx = none`
models a returned `nil` context, `ctx = some c` a returned context whose
binding is `c`. -/
structure OpResult where
  w : World
  ctx : Option Ctx
  err : Option Err
deriving DecidableEq, Repr

/-- Driver call: consumes the next oracle entry; on success the
statement is appended to the trace, on failure the driver's error is
returned and nothing is recorded as executed. -/
def World.call (w : World) (st : Stmt) : World × Option Err :=
  match w.oracle with
  | [] => ({ w with trace := w.trace ++ [st] }, none)
  | none :: rest => ({ w with trace := w.trace ++ [st], oracle := rest }, none)
  | some k :: rest => ({ w with oracle := rest }, some (Err.driver k))

/-- Read the `transaction` record with heap id `hid` (total via a
default; every reachable context only holds ids of allocated records). -/
def World.handleAt (w : World) (hid : Nat) : transaction :=
  w.handles.getD hid ⟨0, 0⟩

/-- Overwrite the `savePoint` field of the record with heap id `hid`
(the in-place mutation `t.savePoint = …` of the shared Go struct). -/
def World.setSp (w : World) (hid : Nat) (sp : Nat) : World :=
  { w with handles := w.handles.set hid ⟨(w.handleAt hid).tx, sp⟩ }

/-- Go `MySQL.StartTransaction`: with no bound transaction, `db.Begin()`
and bind a fresh `transaction` with `savePoint = 0`; with one bound,
increment `savePoint` (uint64 wrap) and issue `SAVEPOINT SP<savePoint>`.
Note the Go code increments before the `Exec` and does not undo the
increment when the `Exec` fails. -/
def StartTransaction (w : World) (ctx : Ctx) : OpResult :=
  match ctx with
  | none =>
    let r := w.call Stmt.begin
    match r.2 with
    | some e => ⟨r.1, none, some e⟩
    | none =>
      ⟨{ r.1 with handles := r.1.handles ++ [⟨r.1.nextTx, 0⟩], nextTx := r.1.nextTx + 1 },
        some (some r.1.handles.length), none⟩
  | some hid =>
    let sp := ((w.handleAt hid).savePoint + 1) % u64
    let w1 := w.setSp hid sp
    let r := w1.call (Stmt.savepoint sp)
    match r.2 with
    | some e => ⟨r.1, none, some e⟩
    | none => ⟨r.1, some (some hid), none⟩

/-- Go `MySQL.UseTransaction`: adopt an externally created transaction
(`none` models a `nil *sql.Tx` argument) as a fresh depth-0 binding;
fails if no transaction is provided or one is already bound. -/
def UseTransaction (w : World) (ctx : Ctx) (tx : Option Nat) : OpResult :=
  match tx with
  | none => ⟨w, none, some Err.noTransactionProvided⟩
  | some txid =>
    match ctx with
    | some _ => ⟨w, none, some Err.transactionAlreadyStarted⟩
    | none =>
      ⟨{ w with handles := w.handles ++ [⟨txid, 0⟩] },
        some (some w.handles.length), none⟩

/-- Go `MySQL.Commit`: with no binding, the "No started transaction"
misuse error; with `savePoint > 0`, issue `RELEASE SAVEPOINT` and, only
on success, decrement; with `savePoint = 0`, issue the real `Commit`
and return a context whose binding is cleared (`WithValue(…, nil)`,
observed as absent). -/
def Commit (w : World) (ctx : Ctx) : OpResult :=
  match ctx with
  | none => ⟨w, none, some Err.noStartedTransaction⟩
  | some hid =>
    let sp := (w.handleAt hid).savePoint
    if sp > 0 then
      let r := w.call (Stmt.releaseSavepoint sp)
      match r.2 with
      | some e => ⟨r.1, none, some e⟩
      | none => ⟨r.1.setSp hid (sp - 1), some (some hid), none⟩
    else
      let r := w.call Stmt.commit
      match r.2 with
      | some e => ⟨r.1, none, some e⟩
      | none => ⟨r.1, some none, none⟩

/-- Go `MySQL.Rollback`: symmetric to `Commit` with
`ROLLBACK TO SAVEPOINT` and the real `Rollback`. -/
def Rollback (w : World) (ctx : Ctx) : OpResult :=
  match ctx with
  | none => ⟨w, none, some Err.noStartedTransaction⟩
  | some hid =>
    let sp := (w.handleAt hid).savePoint
    if sp > 0 then
      let r := w.call (Stmt.rollbackToSavepoint sp)
      match r.2 with
      | some e => ⟨r.1, none, some e⟩
      | none => ⟨r.1.setSp hid (sp - 1), some (some hid), none⟩
    else
      let r := w.call Stmt.rollback
      match r.2 with
      | some e => ⟨r.1, none, some e⟩
      | none => ⟨r.1, some none, none⟩

/-- Go `MySQL.DoInTransaction`: start, run `f` on the updated context,
roll back (best effort, result discarded) and return `f`'s error on
failure; otherwise commit, rolling back and returning the commit error
if the commit fails. -/
def DoInTransaction (w : World) (ctx : Ctx)
    (f : World → Ctx → World × Option Err) : World × Option Err :=
  match StartTransaction w ctx with
  | ⟨w1, _, some e⟩ => (w1, some e)
  | ⟨w1, copt, none⟩ =>
    let c := copt.getD none
    let fr := f w1 c
    match fr.2 with
    | some fe => ((Rollback fr.1 c).w, some fe)
    | none =>
      match Commit fr.1 c with
      | ⟨w3, _, some ce⟩ => ((Rollback w3 c).w, some ce)
      | ⟨w3, _, none⟩ => (w3, none)

/-- Go `MySQL.GetTransaction`: the real transaction currently bound, or
`none`. -/
def GetTransaction (w : World) (ctx : Ctx) : Option Nat :=
  match ctx with
  | none => none
  | some hid => some (w.handleAt hid).tx

/-- Coordinator operations a caller can chain on a context. -/
inductive Op where
  | start : Op
  | commit : Op
  | rollback : Op
deriving DecidableEq, Repr

/-- Apply one operation. -/
def applyOp : Op → World → Ctx → OpResult
  | .start, w, c => StartTransaction w c
  | .commit, w, c => Commit w c
  | .rollback, w, c => Rollback w c

/-- Run a sequence of operations the way a caller does: use the
returned context after a successful call; keep the previous context
when the call returned a `nil` context. -/
def runOps : List Op → World → Ctx → World × Ctx
  | [], w, c => (w, c)
  | op :: rest, w, c =>
    let r := applyOp op w c
    runOps rest r.w (r.ctx.getD c)

/-- World with no handles, empty trace, every driver call succeeding. -/
def w0 : World := ⟨[], [], [], 0⟩

/-- Savepoint numbers among a list of issued statements, in issue
order. -/
def issuedSavepoints (tr : List Stmt) : List Nat :=
  tr.filterMap fun st =>
    match st with
    | Stmt.savepoint n => some n
    | _ => none

/-! ### Helper lemmas -/

/-- Reading back the handle just written by `setSp`. -/
theorem handleAt_setSp_self (w : World) (hid sp : Nat) (h : hid < w.handles.length) :
    (w.setSp hid sp).handleAt hid = ⟨(w.handleAt hid).tx, sp⟩ := by
  simp [World.setSp, World.handleAt, List.getD_eq_getElem?_getD, List.getElem?_set_self h]

/-- A handle id out of range reads as the default record, whose
`savePoint` is `0`. -/
theorem handleAt_out_of_range (w : World) (hid : Nat) (h : w.handles.length ≤ hid) :
    w.handleAt hid = ⟨0, 0⟩ := by
  simp [World.handleAt, List.getD_eq_getElem?_getD, List.getElem?_eq_none h]

/-- Reading the handle just appended at the end of the heap. -/
theorem handleAt_append_length (w : World) (h : transaction) :
    ({ w with handles := w.handles ++ [h] } : World).handleAt w.handles.length = h := by
  simp [World.handleAt, List.getD_eq_getElem?_getD, List.getElem?_concat_length]

/-! ### Claims -/

/-- Claim C7: calling Commit or Rollback on a context with no bound
Handle fails with the "No started transaction" misuse error, returns a
nil context, and leaves the world untouched — in particular no database
statement is issued (the trace and the oracle are unchanged). -/
theorem C7_commit_rollback_without_binding (w : World) :
    Commit w none = ⟨w, none, some Err.noStartedTransaction⟩ ∧
    Rollback w none = ⟨w, none, some Err.noStartedTransaction⟩ :=
  ⟨rfl, rfl⟩

/-- Claim C2 (Scenario A): from a context with no bound Handle, with
every driver call succeeding, the sequence Start, Start (nested),
Rollback (innermost), Commit (outer) issues against the database exactly
`BEGIN`, `SAVEPOINT SP1`, `ROLLBACK TO SAVEPOINT SP1`, `COMMIT`, in that
order and nothing else — in particular no `RELEASE SAVEPOINT` after the
rollback-to-savepoint. -/
theorem C2_scenarioA_trace :
    (runOps [Op.start, Op.start, Op.rollback, Op.commit] w0 none).1.trace =
      [Stmt.begin, Stmt.savepoint 1, Stmt.rollbackToSavepoint 1, Stmt.commit] ∧
    (runOps [Op.start, Op.start, Op.rollback, Op.commit] w0 none).2 = none := by
  decide

/-- Claim C3 (failing input): a successful root Start followed by a
nested Start whose `SAVEPOINT` Exec fails (driver error 7).  The nested
Start returns the driver error and a nil context, yet the Handle's
`savePoint` counter has durably advanced from 0 to 1 while no
`SAVEPOINT` statement was ever executed (the trace still holds only
`BEGIN`); a subsequent Commit then issues `RELEASE SAVEPOINT SP1` for a
savepoint that was never created.  This contradicts the claim (and the
spec's partial-failure policy), which require the depth to equal its
value before the failed call. -/
theorem C3_failed_exec_leaves_depth_advanced :
    (StartTransaction ⟨[], [], [none, some 7], 0⟩ none).err = none ∧
    ((StartTransaction ⟨[], [], [none, some 7], 0⟩ none).w.handleAt 0).savePoint = 0 ∧
    (StartTransaction (StartTransaction ⟨[], [], [none, some 7], 0⟩ none).w (some 0)).err =
      some (Err.driver 7) ∧
    ((StartTransaction (StartTransaction ⟨[], [], [none, some 7], 0⟩ none).w (some 0)).w.handleAt
      0).savePoint = 1 ∧
    (StartTransaction (StartTransaction ⟨[], [], [none, some 7], 0⟩ none).w (some 0)).w.trace =
      [Stmt.begin] ∧
    (Commit (StartTransaction (StartTransaction ⟨[], [], [none, some 7], 0⟩ none).w
        (some 0)).w (some 0)).w.trace = [Stmt.begin, Stmt.releaseSavepoint 1] := by
  decide

/-- Claim C8: UseTransaction fails with "No transaction provided" when
the external transaction is nil, fails with "Transaction already
started" when a Handle is already bound (hence Adopt immediately after
a successful Adopt fails), and on success returns a new context binding
a fresh depth-0 Handle. -/
theorem C8_useTransaction_protocol (w w2 : World) (ctx : Ctx) (t t2 hid : Nat) :
    UseTransaction w ctx none = ⟨w, none, some Err.noTransactionProvided⟩ ∧
    UseTransaction w (some hid) (some t) = ⟨w, none, some Err.transactionAlreadyStarted⟩ ∧
    (UseTransaction w none (some t)).err = none ∧
    (UseTransaction w none (some t)).ctx = some (some w.handles.length) ∧
    ((UseTransaction w none (some t)).w.handleAt w.handles.length) = ⟨t, 0⟩ ∧
    (UseTransaction w2 ((UseTransaction w none (some t)).ctx.getD none) (some t2)).err =
      some Err.transactionAlreadyStarted := by
  refine ⟨rfl, rfl, rfl, rfl, ?_, rfl⟩
  exact handleAt_append_length w ⟨t, 0⟩

/-- Claim C9: every operation returning a `(context, error)` pair —
StartTransaction, UseTransaction, Commit, Rollback — returns a nil
context whenever it returns a non-nil error, so a caller never receives
a usable context together with an error.  (The context the caller passed
in is an immutable value, so its binding is unchanged by construction.) -/
theorem C9_error_implies_nil_context (w : World) (ctx : Ctx) (tx : Option Nat) :
    ((StartTransaction w ctx).err.isSome → (StartTransaction w ctx).ctx = none) ∧
    ((UseTransaction w ctx tx).err.isSome → (UseTransaction w ctx tx).ctx = none) ∧
    ((Commit w ctx).err.isSome → (Commit w ctx).ctx = none) ∧
    ((Rollback w ctx).err.isSome → (Rollback w ctx).ctx = none) := by
  refine ⟨?_, ?_, ?_, ?_⟩
  · cases ctx <;>
      rcases h : w.oracle with _ | ⟨_ | k, rest⟩ <;>
        simp [StartTransaction, World.setSp, World.call, h]
  · cases tx <;> cases ctx <;> simp [UseTransaction]
  · cases ctx <;>
      rcases h : w.oracle with _ | ⟨_ | k, rest⟩ <;>
        simp [Commit, World.call, h] <;> split <;> simp
  · cases ctx <;>
      rcases h : w.oracle with _ | ⟨_ | k, rest⟩ <;>
        simp [Rollback, World.call, h] <;> split <;> simp

/-- Witness for C9: concrete failing calls of each operation (a failing
`db.Begin`, an Adopt with no transaction, and Commit/Rollback without a
binding) indeed return a nil context. -/
theorem C9_error_implies_nil_context_witness :
    (StartTransaction ⟨[], [], [some 3], 0⟩ none).ctx = none ∧
    (UseTransaction w0 none none).ctx = none ∧
    (Commit w0 none).ctx = none ∧
    (Rollback w0 none).ctx = none :=
  ⟨(C9_error_implies_nil_context ⟨[], [], [some 3], 0⟩ none none).1 (by decide),
   (C9_error_implies_nil_context w0 none none).2.1 (by decide),
   (C9_error_implies_nil_context w0 none none).2.2.1 (by decide),
   (C9_error_implies_nil_context w0 none none).2.2.2 (by decide)⟩

/-- Claim C5 (counterexample): after Start and a finalizing Commit, the
pre-finalize context still holds the finalized Handle.  Rollback on that
stale context does not fail with the "No started transaction" misuse
error — it succeeds outright and issues a real `ROLLBACK` to the driver
after the `COMMIT`, refuting the claim that any further operation
against a context still holding the finalized Handle fails with the
misuse error. -/
theorem C5_stale_context_counterexample :
    (Commit (StartTransaction w0 none).w (some 0)).ctx = some none ∧
    (Rollback (Commit (StartTransaction w0 none).w (some 0)).w (some 0)).err = none ∧
    (Rollback (Commit (StartTransaction w0 none).w (some 0)).w (some 0)).err ≠
      some Err.noStartedTransaction ∧
    (Rollback (Commit (StartTransaction w0 none).w (some 0)).w (some 0)).w.trace =
      [Stmt.begin, Stmt.commit, Stmt.rollback] := by
  decide

/-- Claim C5 (amended): a finalizing Commit or Rollback (depth 0, driver
call succeeding) returns a context whose binding is cleared, and every
operation on a cleared/absent binding behaves as in the ABSENT state
(Commit/Rollback fail with the misuse error, GetTransaction returns
none, UseTransaction adopts successfully); but an old context that still
holds the finalized Handle is not intercepted: Commit/Rollback through
it never produce the "No started transaction" misuse error — they
operate on the stale Handle and reach the driver. -/
theorem C5_finalize_clears_binding (w : World) (hid : Nat)
    (hsp : (w.handleAt hid).savePoint = 0) (hok : w.oracle = []) :
    (Commit w (some hid)).ctx = some none ∧ (Commit w (some hid)).err = none ∧
    (Rollback w (some hid)).ctx = some none ∧ (Rollback w (some hid)).err = none ∧
    (∀ w', Commit w' none = ⟨w', none, some Err.noStartedTransaction⟩) ∧
    (∀ w', Rollback w' none = ⟨w', none, some Err.noStartedTransaction⟩) ∧
    (∀ w', GetTransaction w' none = none) ∧
    (∀ w' t, (UseTransaction w' none (some t)).err = none) ∧
    (∀ w' c, (Commit w' (some c)).err ≠ some Err.noStartedTransaction) ∧
    (∀ w' c, (Rollback w' (some c)).err ≠ some Err.noStartedTransaction) := by
  refine ⟨?_, ?_, ?_, ?_, fun _ => rfl, fun _ => rfl, fun _ => rfl, fun _ _ => rfl, ?_, ?_⟩
  · simp [Commit, hsp, World.call, hok]
  · simp [Commit, hsp, World.call, hok]
  · simp [Rollback, hsp, World.call, hok]
  · simp [Rollback, hsp, World.call, hok]
  · intro w' c
    rcases h : w'.oracle with _ | ⟨_ | k, rest⟩ <;>
      simp [Commit, World.call, h] <;> split <;> simp
  · intro w' c
    rcases h : w'.oracle with _ | ⟨_ | k, rest⟩ <;>
      simp [Rollback, World.call, h] <;> split <;> simp

/-- Witness for C5 (amended): the concrete finalizing Commit after a
root Start clears the binding, and the stale pre-finalize context never
sees the misuse error. -/
theorem C5_finalize_clears_binding_witness :
    (Commit (StartTransaction w0 none).w (some 0)).ctx = some none ∧
    (Rollback (Commit (StartTransaction w0 none).w (some 0)).w (some 0)).err ≠
      some Err.noStartedTransaction := by
  refine ⟨((C5_finalize_clears_binding (StartTransaction w0 none).w 0
      (by decide) (by decide)).1), ?_⟩
  exact (C5_finalize_clears_binding (StartTransaction w0 none).w 0
      (by decide) (by decide)).2.2.2.2.2.2.2.2.2
    (Commit (StartTransaction w0 none).w (some 0)).w 0

/-- Claim C4 (counterexample): the sequence Start, Start (nested),
Commit (releases SP1), Start (nested again) issues `SAVEPOINT SP1`
twice: Commit decrements the counter after `RELEASE SAVEPOINT SP1`, so
the next nested Start reuses identifier 1.  This refutes the claim that
an identifier is never issued twice after an inner savepoint has been
released. -/
theorem C4_savepoint_reuse_counterexample :
    issuedSavepoints (runOps [Op.start, Op.start, Op.commit, Op.start] w0 none).1.trace =
      [1, 1] ∧
    ¬ List.Pairwise (· ≠ ·)
      (issuedSavepoints (runOps [Op.start, Op.start, Op.commit, Op.start] w0 none).1.trace) := by
  decide

/-- Reading back an element just written into a list of handles. -/
theorem getD_set_self (l : List transaction) (i : Nat) (v : transaction)
    (h : i < l.length) : (l.set i v).getD i ⟨0, 0⟩ = v := by
  simp [List.getD_eq_getElem?_getD, List.getElem?_set_self h]

/-- A nested Start (bound Handle, next driver call succeeding, no
uint64 wrap) increments `savePoint` and issues the matching `SAVEPOINT`
statement, returning the same binding. -/
theorem startTransaction_nested_ok (w : World) (hid : Nat) (hok : w.oracle = [])
    (hlt : (w.handleAt hid).savePoint + 1 < u64) :
    StartTransaction w (some hid) =
      ⟨⟨w.handles.set hid ⟨(w.handleAt hid).tx, (w.handleAt hid).savePoint + 1⟩,
        w.trace ++ [Stmt.savepoint ((w.handleAt hid).savePoint + 1)], [], w.nextTx⟩,
        some (some hid), none⟩ := by
  simp [StartTransaction, World.setSp, World.call, hok, Nat.mod_eq_of_lt hlt]

/-- A sequence of `k` nested Start calls on a bound Handle with
`savePoint = s`, all driver calls succeeding: the binding is unchanged,
the counter ends at `s + k`, and the trace grows by exactly
`SAVEPOINT SP(s+1) … SAVEPOINT SP(s+k)`. -/
theorem runOps_replicate_start : ∀ (k : Nat) (w : World) (hid s : Nat),
    hid < w.handles.length → w.oracle = [] →
    (w.handleAt hid).savePoint = s → s + k < u64 →
    ∃ w', runOps (List.replicate k Op.start) w (some hid) = (w', some hid) ∧
      w'.handles.length = w.handles.length ∧
      w'.oracle = [] ∧ w'.nextTx = w.nextTx ∧
      (w'.handleAt hid).tx = (w.handleAt hid).tx ∧
      (w'.handleAt hid).savePoint = s + k ∧
      w'.trace = w.trace ++ (List.range' (s + 1) k).map Stmt.savepoint := by
  intro k
  induction k with
  | zero =>
    intro w hid s hh hok hs hb
    exact ⟨w, rfl, rfl, hok, rfl, rfl, by simpa using hs, by simp⟩
  | succ k ih =>
    intro w hid s hh hok hs hb
    have hlt : (w.handleAt hid).savePoint + 1 < u64 := by omega
    have hstep := startTransaction_nested_ok w hid hok hlt
    rw [hs] at hstep
    have hat : (⟨w.handles.set hid ⟨(w.handleAt hid).tx, s + 1⟩,
        w.trace ++ [Stmt.savepoint (s + 1)], [], w.nextTx⟩ : World).handleAt hid =
        ⟨(w.handleAt hid).tx, s + 1⟩ := getD_set_self w.handles hid _ hh
    obtain ⟨w', hrun, hlen, ho', hnx, htx, hsp', htr⟩ :=
      ih ⟨w.handles.set hid ⟨(w.handleAt hid).tx, s + 1⟩,
          w.trace ++ [Stmt.savepoint (s + 1)], [], w.nextTx⟩ hid (s + 1)
        (by simpa using hh) rfl (by rw [hat]) (by omega)
    refine ⟨w', ?_, ?_, ho', hnx, ?_, by omega, ?_⟩
    · rw [List.replicate_succ]
      simp only [runOps, applyOp, hstep]
      exact hrun
    · simpa using hlen
    · rw [htx, hat]
    · rw [htr, List.range'_succ]
      simp

/-- Changing only trace, oracle or nextTx does not change what a handle
id reads back. -/
theorem handleAt_same_handles (w : World) (tr : List Stmt) (oc : List (Option Nat))
    (hid : Nat) : (⟨w.handles, tr, oc, w.nextTx⟩ : World).handleAt hid = w.handleAt hid :=
  rfl

/-- A nested Commit (bound Handle at positive depth, driver call
succeeding) issues `RELEASE SAVEPOINT` and decrements the counter,
keeping the binding. -/
theorem commit_nested_ok (w : World) (hid : Nat) (hok : w.oracle = [])
    (hsp : 0 < (w.handleAt hid).savePoint) :
    Commit w (some hid) =
      ⟨⟨w.handles.set hid ⟨(w.handleAt hid).tx, (w.handleAt hid).savePoint - 1⟩,
        w.trace ++ [Stmt.releaseSavepoint ((w.handleAt hid).savePoint)], [], w.nextTx⟩,
        some (some hid), none⟩ := by
  simp [Commit, hsp, World.call, hok, World.setSp, handleAt_same_handles]

/-- A nested Rollback (bound Handle at positive depth, driver call
succeeding) issues `ROLLBACK TO SAVEPOINT` and decrements the counter,
keeping the binding. -/
theorem rollback_nested_ok (w : World) (hid : Nat) (hok : w.oracle = [])
    (hsp : 0 < (w.handleAt hid).savePoint) :
    Rollback w (some hid) =
      ⟨⟨w.handles.set hid ⟨(w.handleAt hid).tx, (w.handleAt hid).savePoint - 1⟩,
        w.trace ++ [Stmt.rollbackToSavepoint ((w.handleAt hid).savePoint)], [], w.nextTx⟩,
        some (some hid), none⟩ := by
  simp [Rollback, hsp, World.call, hok, World.setSp, handleAt_same_handles]

/-- Claim C1: starting from a context with no bound Handle, with every
driver call succeeding, the root Start followed by N nested Starts (all
within the uint64 range) leaves the Handle's depth counter (`savePoint`)
equal to N; every successful Commit or Rollback with depth > 0
decrements the counter by exactly 1 and keeps the binding; and a Commit
or Rollback run with depth = 0 returns a context whose Handle binding is
absent. -/
theorem C1_depth_counter (N : Nat) (hN : N < u64) :
    (∃ w', runOps (List.replicate (N + 1) Op.start) w0 none = (w', some 0) ∧
        (w'.handleAt 0).savePoint = N) ∧
    (∀ (w : World) (hid : Nat), 0 < (w.handleAt hid).savePoint → w.oracle = [] →
        (Commit w (some hid)).err = none ∧ (Commit w (some hid)).ctx = some (some hid) ∧
        (((Commit w (some hid)).w).handleAt hid).savePoint = (w.handleAt hid).savePoint - 1 ∧
        (Rollback w (some hid)).err = none ∧ (Rollback w (some hid)).ctx = some (some hid) ∧
        (((Rollback w (some hid)).w).handleAt hid).savePoint = (w.handleAt hid).savePoint - 1) ∧
    (∀ (w : World) (hid : Nat), (w.handleAt hid).savePoint = 0 → w.oracle = [] →
        (Commit w (some hid)).ctx = some none ∧ (Rollback w (some hid)).ctx = some none) := by
  refine ⟨?_, ?_, ?_⟩
  · rw [List.replicate_succ]
    have h1 : StartTransaction w0 none = ⟨⟨[⟨0, 0⟩], [Stmt.begin], [], 1⟩, some (some 0), none⟩ :=
      rfl
    simp only [runOps, applyOp, h1]
    obtain ⟨w', hrun, _, _, _, _, hsp', _⟩ :=
      runOps_replicate_start N ⟨[⟨0, 0⟩], [Stmt.begin], [], 1⟩ 0 0 (by decide) rfl rfl
        (by omega)
    exact ⟨w', hrun, by simpa using hsp'⟩
  · intro w hid hsp hok
    have hh : hid < w.handles.length := by
      by_contra hge
      push_neg at hge
      rw [handleAt_out_of_range w hid hge] at hsp
      simp at hsp
    have hset := getD_set_self w.handles hid
      ⟨(w.handleAt hid).tx, (w.handleAt hid).savePoint - 1⟩ hh
    rw [commit_nested_ok w hid hok hsp, rollback_nested_ok w hid hok hsp]
    simp only [World.handleAt] at hset
    refine ⟨rfl, rfl, ?_, rfl, rfl, ?_⟩ <;> simp only [World.handleAt, hset]
  · intro w hid hsp hok
    constructor <;> simp [Commit, Rollback, hsp, World.call, hok]

/-- Witness for C1: N = 2 (three Start calls leave the counter at 2); a
concrete Handle at depth 2 is decremented to 1 by Commit and Rollback
succeeds on it; a concrete Handle at depth 0 is finalized by Commit,
which clears the binding. -/
theorem C1_depth_counter_witness :
    (∃ w', runOps (List.replicate 3 Op.start) w0 none = (w', some 0) ∧
        (w'.handleAt 0).savePoint = 2) ∧
    ((Commit ⟨[⟨0, 2⟩], [], [], 1⟩ (some 0)).w.handleAt 0).savePoint = 1 ∧
    (Rollback ⟨[⟨0, 2⟩], [], [], 1⟩ (some 0)).err = none ∧
    (Commit ⟨[⟨0, 0⟩], [], [], 1⟩ (some 0)).ctx = some none := by
  refine ⟨(C1_depth_counter 2 (by decide)).1, ?_, ?_, ?_⟩
  · exact ((C1_depth_counter 2 (by decide)).2.1 ⟨[⟨0, 2⟩], [], [], 1⟩ 0 (by decide) rfl).2.2.1
  · exact
      ((C1_depth_counter 2 (by decide)).2.1 ⟨[⟨0, 2⟩], [], [], 1⟩ 0 (by decide) rfl).2.2.2.1
  · exact ((C1_depth_counter 2 (by decide)).2.2 ⟨[⟨0, 0⟩], [], [], 1⟩ 0 rfl rfl).1

/-- Appending `SAVEPOINT` statements to a trace appends exactly their
numbers to the list of issued savepoint numbers. -/
theorem issuedSavepoints_append_map (tr : List Stmt) (l : List Nat) :
    issuedSavepoints (tr ++ l.map Stmt.savepoint) = issuedSavepoints tr ++ l := by
  simp only [issuedSavepoints, List.filterMap_append, List.filterMap_map]
  congr 1
  have h : ((fun st =>
      match st with
      | Stmt.savepoint n => some n
      | _ => none) ∘ Stmt.savepoint) = some := rfl
  rw [h, List.filterMap_some]

/-- Claim C4 (amended): each nested Start issues the identifier equal to
the depth counter after its increment, so within any run of consecutive
nested Start calls (no intervening Commit/Rollback) the issued
identifiers are strictly increasing and pairwise distinct; but after a
Commit or Rollback releases a savepoint the counter is decremented, and
the next nested Start reuses the released identifier (the counterexample
run issues `SAVEPOINT SP1` twice). -/
theorem C4_savepoint_numbers_amended (k : Nat) (w : World) (hid s : Nat)
    (hh : hid < w.handles.length) (hok : w.oracle = [])
    (hs : (w.handleAt hid).savePoint = s) (hb : s + k < u64) :
    (∃ w', runOps (List.replicate k Op.start) w (some hid) = (w', some hid) ∧
        w'.trace = w.trace ++ (List.range' (s + 1) k).map Stmt.savepoint ∧
        issuedSavepoints w'.trace = issuedSavepoints w.trace ++ List.range' (s + 1) k ∧
        List.Pairwise (· < ·) (List.range' (s + 1) k)) ∧
    issuedSavepoints (runOps [Op.start, Op.start, Op.commit, Op.start] w0 none).1.trace =
      [1, 1] := by
  refine ⟨?_, by decide⟩
  obtain ⟨w', hrun, _, _, _, _, _, htr⟩ := runOps_replicate_start k w hid s hh hok hs hb
  refine ⟨w', hrun, htr, ?_, List.pairwise_lt_range' _ _⟩
  rw [htr, issuedSavepoints_append_map]

/-- Witness for C4 (amended): three consecutive nested Starts on a
fresh root Handle issue exactly `SP1`, `SP2`, `SP3`. -/
theorem C4_savepoint_numbers_amended_witness :
    ∃ w', runOps (List.replicate 3 Op.start) ⟨[⟨0, 0⟩], [], [], 1⟩ (some 0) = (w', some 0) ∧
      w'.trace = [Stmt.savepoint 1, Stmt.savepoint 2, Stmt.savepoint 3] := by
  obtain ⟨⟨w', hrun, htr, _, _⟩, _⟩ :=
    C4_savepoint_numbers_amended 3 ⟨[⟨0, 0⟩], [], [], 1⟩ 0 0 (by decide) rfl rfl (by decide)
  exact ⟨w', hrun, by rw [htr]; rfl⟩

/-- Claim C10: the Handle's mutex makes each nested Start's critical
section (depth increment plus savepoint Exec) atomic, so a concurrent
execution of k nested Start calls on one shared Handle is some
sequential composition of k such atomic steps — modelled here as
`runOps` of k Start operations.  The savepoint numbers issued by that
composition are strictly increasing in issue order and pairwise
distinct: no two of the calls issue the same `SP<n>` statement. -/
theorem C10_serialized_starts_distinct (k : Nat) (w : World) (hid s : Nat)
    (hh : hid < w.handles.length) (hok : w.oracle = [])
    (hs : (w.handleAt hid).savePoint = s) (hb : s + k < u64) :
    ∃ w', runOps (List.replicate k Op.start) w (some hid) = (w', some hid) ∧
      issuedSavepoints w'.trace = issuedSavepoints w.trace ++ List.range' (s + 1) k ∧
      List.Chain' (· < ·) (List.range' (s + 1) k) ∧
      List.Pairwise (· ≠ ·) (List.range' (s + 1) k) := by
  obtain ⟨w', hrun, _, _, _, _, _, htr⟩ := runOps_replicate_start k w hid s hh hok hs hb
  refine ⟨w', hrun, ?_, ?_, ?_⟩
  · rw [htr, issuedSavepoints_append_map]
  · exact List.Pairwise.chain' (List.pairwise_lt_range' _ _)
  · exact (List.pairwise_lt_range' _ _).imp Nat.ne_of_lt

/-- Witness for C10: two serialized nested Starts on a Handle whose
counter already stands at 5 issue the distinct numbers 6 and 7. -/
theorem C10_serialized_starts_distinct_witness :
    ∃ w', runOps (List.replicate 2 Op.start) ⟨[⟨0, 5⟩], [], [], 1⟩ (some 0) = (w', some 0) ∧
      issuedSavepoints w'.trace = [6, 7] ∧
      List.Pairwise (· ≠ ·) ([6, 7] : List Nat) := by
  obtain ⟨w', hrun, hiss, _, hne⟩ :=
    C10_serialized_starts_distinct 2 ⟨[⟨0, 5⟩], [], [], 1⟩ 0 5 (by decide) rfl rfl (by decide)
  exact ⟨w', hrun, by rw [hiss]; rfl, by decide⟩

/-- Claim C6: DoInTransaction.  If Start fails, its error is returned
and nothing else runs (the result is exactly the post-Start state, for
every f).  If f returns an error, a best-effort Rollback is attempted
and f's error is returned — it wins over the rollback's own outcome for
every oracle.  If f succeeds but Commit fails, a Rollback is attempted
and Commit's error is returned.  Scenario B: a top-level
DoInTransaction whose f fails rolls the real transaction back (trace
`BEGIN`, `ROLLBACK`, no `COMMIT`) and returns f's error. -/
theorem C6_doInTransaction (w : World) (ctx : Ctx) (f : World → Ctx → World × Option Err) :
    (∀ w1 c e, StartTransaction w ctx = ⟨w1, c, some e⟩ →
        DoInTransaction w ctx f = (w1, some e)) ∧
    (∀ w1 copt fe, StartTransaction w ctx = ⟨w1, copt, none⟩ →
        (f w1 (copt.getD none)).2 = some fe →
        DoInTransaction w ctx f =
          ((Rollback (f w1 (copt.getD none)).1 (copt.getD none)).w, some fe)) ∧
    (∀ w1 copt w3 c3 ce, StartTransaction w ctx = ⟨w1, copt, none⟩ →
        (f w1 (copt.getD none)).2 = none →
        Commit (f w1 (copt.getD none)).1 (copt.getD none) = ⟨w3, c3, some ce⟩ →
        DoInTransaction w ctx f = ((Rollback w3 (copt.getD none)).w, some ce)) ∧
    DoInTransaction w0 none (fun v _ => (v, some (Err.app 5))) =
      (⟨[⟨0, 0⟩], [Stmt.begin, Stmt.rollback], [], 1⟩, some (Err.app 5)) := by
  refine ⟨?_, ?_, ?_, by decide⟩
  · intro w1 c e hstart
    simp only [DoInTransaction, hstart]
  · intro w1 copt fe hstart hf
    simp only [DoInTransaction, hstart, hf]
  · intro w1 copt w3 c3 ce hstart hf hcommit
    simp only [DoInTransaction, hstart, hf, hcommit]

/-- Witness for C6: a concrete failing f (error code 9) after a
successful root Start makes DoInTransaction roll back and return the
code-9 application error. -/
theorem C6_doInTransaction_witness :
    DoInTransaction w0 none (fun v _ => (v, some (Err.app 9))) =
      ((Rollback ⟨[⟨0, 0⟩], [Stmt.begin], [], 1⟩ (some 0)).w, some (Err.app 9)) :=
  (C6_doInTransaction w0 none (fun v _ => (v, some (Err.app 9)))).2.1
    ⟨[⟨0, 0⟩], [Stmt.begin], [], 1⟩ (some (some 0)) (Err.app 9) rfl rfl

end StorageMySQL
